import Mathlib

/-!
Shallow embedding of the circuit-breaker layer of the auction-website
microservices.

Two breaker families exist in the source:

* `SimpleCircuitBreaker` (services/api-gateway/src/index.ts), duplicated
  verbatim as `PaymentCircuitBreaker`
  (services/payments/src/stripe-circuit-breaker.ts): leaky failure-count
  decrement on success while CLOSED, `setState` unconditionally zeroes
  `successCount` on OPEN / HALF_OPEN, `isHealthy` is `state != OPEN`,
  `getStats` exposes `errorRate = totalFailures / totalRequests * 100`.

* `DatabaseCircuitBreaker` (services/profile/src/utils/database-circuit-breaker.ts),
  duplicated verbatim as `S3CircuitBreaker`
  (services/listings — listing-updated-publisher bundle): resets the failure
  count to zero on success while CLOSED, `changeState` is a no-op when the
  state does not change, `isHealthy` is `state == CLOSED`, `getStats`
  exposes an `uptime` percentage instead of `errorRate`.

Times are modelled as integers (JavaScript `Date.now()` values); counters
are natural numbers. A guarded operation is modelled by its outcome
(`OpResult`), and `execute` reports whether the operation was invoked.
-/

namespace Auction

/-- The three states of every breaker variant (enum `CircuitState`). -/
inductive CircuitState where
  | CLOSED
  | OPEN
  | HALF_OPEN
deriving DecidableEq, Repr

/-- Constructor options common to every breaker variant
(`CircuitBreakerOptions`): a name plus the three tuning parameters.
`monitoringPeriod` of the gateway options object is never read by the
implementation and is omitted. -/
structure CircuitBreakerOptions where
  name : String
  failureThreshold : Nat
  successThreshold : Nat
  timeout : Int
deriving DecidableEq, Repr

/-- The mutable fields shared by every breaker variant. -/
structure BreakerData where
  state : CircuitState
  failureCount : Nat
  successCount : Nat
  lastFailureTime : Option Int
  totalRequests : Nat
  totalFailures : Nat
deriving DecidableEq, Repr

/-- Field initializers of every breaker class: CLOSED, all counters zero,
no failure recorded. -/
def initialBreaker : BreakerData :=
  { state := .CLOSED
    failureCount := 0
    successCount := 0
    lastFailureTime := none
    totalRequests := 0
    totalFailures := 0 }

/-- Outcome of one invocation of a guarded operation (`operation()` either
resolves or rejects). -/
inductive OpResult where
  | success
  | failure
deriving DecidableEq, Repr

/-- Result of one `execute` call. `opened` models the thrown
circuit-open error (admission refused, no fallback installed);
`fallback v` models the value returned by an installed `onFallback`;
`succeeded` / `failed` model the operation having run and resolved /
rejected (on rejection the original error is re-thrown). -/
inductive ExecResult (α : Type) where
  | opened
  | fallback (v : α)
  | succeeded
  | failed
deriving DecidableEq, Repr

/-- Everything observable about one `execute` call: its result, the
breaker fields afterwards, and whether the guarded operation was invoked. -/
structure ExecOutcome (α : Type) where
  result : ExecResult α
  breaker : BreakerData
  opInvoked : Bool
deriving DecidableEq, Repr

namespace SimpleCircuitBreaker

/-- `setState` of the gateway / payment family: assigns the new state and
then — unconditionally, outside the changed-state guard — zeroes
`successCount` whenever the new state is HALF_OPEN or OPEN. -/
def setState (b : BreakerData) (newState : CircuitState) : BreakerData :=
  let b1 := { b with state := newState }
  if newState = .HALF_OPEN ∨ newState = .OPEN then
    { b1 with successCount := 0 }
  else b1

/-- `shouldAttemptReset(now)`: true when a failure time is recorded and at
least `timeout` milliseconds have elapsed since it. -/
def shouldAttemptReset (o : CircuitBreakerOptions) (b : BreakerData)
    (now : Int) : Bool :=
  match b.lastFailureTime with
  | none => false
  | some t => decide (o.timeout ≤ now - t)

/-- `canExecute()`: CLOSED and HALF_OPEN admit; OPEN admits only when
`shouldAttemptReset` holds, in which case the breaker moves to HALF_OPEN
before the call runs. Returns the admission verdict together with the
breaker after the check (the check itself can mutate the state). -/
def canExecute (o : CircuitBreakerOptions) (b : BreakerData)
    (now : Int) : Bool × BreakerData :=
  match b.state with
  | .CLOSED => (true, b)
  | .OPEN =>
      if shouldAttemptReset o b now then (true, setState b .HALF_OPEN)
      else (false, b)
  | .HALF_OPEN => (true, b)

/-- `reset()`: zero both working counters and move to CLOSED. -/
def reset (b : BreakerData) : BreakerData :=
  setState { b with failureCount := 0, successCount := 0 } .CLOSED

/-- `onSuccess()`: increment `successCount`; while HALF_OPEN, a full
`reset` once `successCount` reaches `successThreshold`; while CLOSED,
decrement `failureCount` toward zero (`Math.max(0, failureCount - 1)`,
which is truncated subtraction on naturals). -/
def onSuccess (o : CircuitBreakerOptions) (b : BreakerData) : BreakerData :=
  let b1 := { b with successCount := b.successCount + 1 }
  if b1.state = .HALF_OPEN then
    if o.successThreshold ≤ b1.successCount then reset b1 else b1
  else if b1.state = .CLOSED then
    { b1 with failureCount := b1.failureCount - 1 }
  else b1

/-- `onFailure()`: increment `failureCount` and `totalFailures`, record
the failure time; one failure while HALF_OPEN reopens; while CLOSED, trip
to OPEN once `failureCount` reaches `failureThreshold`. -/
def onFailure (o : CircuitBreakerOptions) (b : BreakerData)
    (now : Int) : BreakerData :=
  let b1 := { b with
    failureCount := b.failureCount + 1
    totalFailures := b.totalFailures + 1
    lastFailureTime := some now }
  if b1.state = .HALF_OPEN then setState b1 .OPEN
  else if b1.state = .CLOSED then
    if o.failureThreshold ≤ b1.failureCount then setState b1 .OPEN else b1
  else b1

/-- `execute(operation)`: refuse when `canExecute` denies — returning the
`onFallback` value when one is installed (gateway) and otherwise throwing
the circuit-open error (payments); when admitted, increment
`totalRequests`, run the operation, and apply `onSuccess` / `onFailure`
to its outcome. The `onFallback` closure receives the breaker name. -/
def execute (α : Type) (o : CircuitBreakerOptions)
    (onFallback : Option (String → α)) (b : BreakerData) (now : Int)
    (op : OpResult) : ExecOutcome α :=
  let c := canExecute o b now
  if c.1 then
    let b2 := { c.2 with totalRequests := c.2.totalRequests + 1 }
    match op with
    | .success => ⟨.succeeded, onSuccess o b2, true⟩
    | .failure => ⟨.failed, onFailure o b2 now, true⟩
  else
    match onFallback with
    | some f => ⟨.fallback (f o.name), c.2, false⟩
    | none => ⟨.opened, c.2, false⟩

/-- `isHealthy()`: every state except OPEN counts as healthy. -/
def isHealthy (b : BreakerData) : Bool :=
  decide (b.state ≠ .OPEN)

/-- The object literal returned by `getStats()`; `errorRate` is a rational
modelling the JavaScript number. -/
structure Stats where
  name : String
  state : CircuitState
  failureCount : Nat
  successCount : Nat
  lastFailureTime : Option Int
  totalRequests : Nat
  totalFailures : Nat
  errorRate : ℚ
deriving DecidableEq, Repr

/-- `getStats()`: mirrors every field and computes
`errorRate = totalFailures / totalRequests * 100` (0 when no request has
been made). It constructs a fresh object and writes no breaker field. -/
def getStats (o : CircuitBreakerOptions) (b : BreakerData) : Stats :=
  { name := o.name
    state := b.state
    failureCount := b.failureCount
    successCount := b.successCount
    lastFailureTime := b.lastFailureTime
    totalRequests := b.totalRequests
    totalFailures := b.totalFailures
    errorRate :=
      if 0 < b.totalRequests then
        (b.totalFailures : ℚ) / (b.totalRequests : ℚ) * 100
      else 0 }

/-- `trip()`: force OPEN and stamp `lastFailureTime` with the current time. -/
def trip (b : BreakerData) (now : Int) : BreakerData :=
  { setState b .OPEN with lastFailureTime := some now }

/-- `forceReset()`: delegates to `reset`. -/
def forceReset (b : BreakerData) : BreakerData :=
  reset b

end SimpleCircuitBreaker

namespace DatabaseCircuitBreaker

/-!
The profile service `DatabaseCircuitBreaker` and the listings service
`S3CircuitBreaker` have identical breaker logic (field for field and
branch for branch); this namespace embeds both.
-/

/-- `changeState(newState)`: a no-op when the state is unchanged;
otherwise assigns it and zeroes both working counters when entering
CLOSED, or only `successCount` when entering HALF_OPEN. -/
def changeState (b : BreakerData) (newState : CircuitState) : BreakerData :=
  if b.state = newState then b
  else
    let b1 := { b with state := newState }
    match newState with
    | .CLOSED => { b1 with failureCount := 0, successCount := 0 }
    | .HALF_OPEN => { b1 with successCount := 0 }
    | .OPEN => b1

/-- `canExecute()`: as in the gateway family, except that the elapsed-time
check reads `lastFailureTime || 0` (a missing failure time is treated as
epoch) and is written inline. -/
def canExecute (o : CircuitBreakerOptions) (b : BreakerData)
    (now : Int) : Bool × BreakerData :=
  match b.state with
  | .CLOSED => (true, b)
  | .OPEN =>
      if o.timeout ≤ now - (b.lastFailureTime.getD 0) then
        (true, changeState b .HALF_OPEN)
      else (false, b)
  | .HALF_OPEN => (true, b)

/-- `onSuccess()`: increment `successCount`; while HALF_OPEN, close once
the threshold is reached; while CLOSED, reset `failureCount` to zero
outright (unlike the gateway family, which decrements by one). -/
def onSuccess (o : CircuitBreakerOptions) (b : BreakerData) : BreakerData :=
  let b1 := { b with successCount := b.successCount + 1 }
  if b1.state = .HALF_OPEN then
    if o.successThreshold ≤ b1.successCount then changeState b1 .CLOSED
    else b1
  else if b1.state = .CLOSED then { b1 with failureCount := 0 }
  else b1

/-- `onFailure()`: increment `failureCount` and `totalFailures`, record
the failure time, and open when HALF_OPEN or when the threshold is
reached. -/
def onFailure (o : CircuitBreakerOptions) (b : BreakerData)
    (now : Int) : BreakerData :=
  let b1 := { b with
    failureCount := b.failureCount + 1
    totalFailures := b.totalFailures + 1
    lastFailureTime := some now }
  if b1.state = .HALF_OPEN ∨ o.failureThreshold ≤ b1.failureCount then
    changeState b1 .OPEN
  else b1

/-- `execute(operation)`: refusal throws a `CircuitBreakerError` (no
fallback hook exists in this family); when admitted, increment
`totalRequests`, run the operation and apply the outcome rule. -/
def execute (o : CircuitBreakerOptions) (b : BreakerData) (now : Int)
    (op : OpResult) : ExecOutcome Unit :=
  let c := canExecute o b now
  if c.1 then
    let b2 := { c.2 with totalRequests := c.2.totalRequests + 1 }
    match op with
    | .success => ⟨.succeeded, onSuccess o b2, true⟩
    | .failure => ⟨.failed, onFailure o b2 now, true⟩
  else ⟨.opened, c.2, false⟩

/-- `isHealthy()`: only CLOSED counts as healthy in this family — a
HALF_OPEN breaker reports unhealthy. -/
def isHealthy (b : BreakerData) : Bool :=
  decide (b.state = .CLOSED)

/-- `trip()`: force OPEN (via the guarded `changeState`) and stamp
`lastFailureTime`. -/
def trip (b : BreakerData) (now : Int) : BreakerData :=
  { changeState b .OPEN with lastFailureTime := some now }

/-- `forceReset()`: just `changeState(CLOSED)` — because `changeState`
is guarded by a state comparison, this is a no-op on a breaker that is
already CLOSED. -/
def forceReset (b : BreakerData) : BreakerData :=
  changeState b .CLOSED

end DatabaseCircuitBreaker

namespace ApiGateway

/-- The standardized body built by the gateway breaker `onFallback`
handler. -/
structure FallbackBody where
  error : String
  message : String
  serviceName : String
  timestamp : String
  retryAfter : String
deriving DecidableEq, Repr

/-- The `{status, data}` object returned by the gateway `onFallback`
handler. -/
structure FallbackResponse where
  status : Nat
  data : FallbackBody
deriving DecidableEq, Repr

/-- The `onFallback` closure installed on every route breaker: a 503
payload whose `serviceName` is the breaker name it was invoked with.
The timestamp string (`new Date().toISOString()`) is a parameter. -/
def onFallback (ts : String) (name : String) : FallbackResponse :=
  { status := 503
    data :=
      { error := "Service Temporarily Unavailable"
        message := "The " ++ name ++
          " service is currently experiencing issues. Please try again later."
        serviceName := name
        timestamp := ts
        retryAfter := "60 seconds" } }

/-- The options `initializeCircuitBreakers` passes to each route breaker:
the route serviceName, failureThreshold 5, successThreshold 2, timeout
60000 ms. -/
def gatewayBreakerOptions (serviceName : String) : CircuitBreakerOptions :=
  { name := serviceName
    failureThreshold := 5
    successThreshold := 2
    timeout := 60000 }

/-- What the gateway sends back to the original caller. -/
inductive ProxyBody where
  | fromFallback (body : FallbackBody)
  | fromBackend (status : Nat)
  | proxyError (msg : String)
deriving DecidableEq, Repr

/-- Observable outcome of one `proxyRequest` call: the HTTP response, the
number of times the backend was contacted, and the breaker afterwards. -/
structure ProxyOutcome where
  status : Nat
  body : ProxyBody
  backendCalls : Nat
  breaker : BreakerData
deriving DecidableEq, Repr

/-- `proxyRequest`: runs `makeServiceRequest` through the route breaker.
`makeServiceRequest` throws when the backend answers with status ≥ 500
(axios itself never throws on status, `validateStatus` is constant true),
so the guarded operation fails exactly when `500 ≤ backendStatus`. A
refusal surfaces as the `onFallback` value, which `proxyRequest` renders
as `res.status(result.status).json(result.data)`; an admitted successful
call forwards the backend response; a thrown error reaches
`handleServiceError`, which for these plain errors (no `response` /
`request` field) answers 500. -/
def proxyRequest (serviceName ts : String) (b : BreakerData) (now : Int)
    (backendStatus : Nat) : ProxyOutcome :=
  let op : OpResult := if 500 ≤ backendStatus then .failure else .success
  let eo := SimpleCircuitBreaker.execute FallbackResponse
    (gatewayBreakerOptions serviceName) (some (onFallback ts)) b now op
  let calls : Nat := if eo.opInvoked then 1 else 0
  match eo.result with
  | .fallback fr => ⟨fr.status, .fromFallback fr.data, calls, eo.breaker⟩
  | .succeeded => ⟨backendStatus, .fromBackend backendStatus, calls, eo.breaker⟩
  | .failed => ⟨500, .proxyError "Failed to proxy request", calls, eo.breaker⟩
  | .opened => ⟨500, .proxyError "Failed to proxy request", calls, eo.breaker⟩

end ApiGateway

/-- One administrative or guarded step against a breaker, for reasoning
about arbitrary operation sequences. -/
inductive BreakerOp where
  | exec (now : Int) (r : OpResult)
  | trip (now : Int)
  | forceReset
deriving DecidableEq, Repr

namespace SimpleCircuitBreaker

/-- Apply one `BreakerOp` to a gateway-family breaker (fallback presence
does not affect the breaker fields, so the step is stated without one). -/
def step (o : CircuitBreakerOptions) (b : BreakerData) :
    BreakerOp → BreakerData
  | .exec now r => (execute Unit o none b now r).breaker
  | .trip now => trip b now
  | .forceReset => forceReset b

/-- Run a finite sequence of operations against a breaker. -/
def run (o : CircuitBreakerOptions) (b : BreakerData)
    (ops : List BreakerOp) : BreakerData :=
  ops.foldl (step o) b

end SimpleCircuitBreaker

/-- The options the payments service passes to its breaker
(`StripeWithCircuitBreaker` constructor). -/
def paymentOptions : CircuitBreakerOptions :=
  { name := "stripe-api"
    failureThreshold := 3
    successThreshold := 2
    timeout := 30000 }

/-- The options of the profile service singleton
`profileDatabaseCircuitBreaker`. -/
def profileDatabaseOptions : CircuitBreakerOptions :=
  { name := "profile-database"
    failureThreshold := 5
    successThreshold := 3
    timeout := 30000 }

/-- The options of the listings service singleton
`listingsS3CircuitBreaker`. -/
def listingsS3Options : CircuitBreakerOptions :=
  { name := "listings-s3"
    failureThreshold := 3
    successThreshold := 2
    timeout := 60000 }

/-- First step of the concrete failing run used to instantiate the trip
scenario: one guarded failure at time 0 against a fresh payment breaker. -/
def tripRun1 : BreakerData :=
  (SimpleCircuitBreaker.execute Unit paymentOptions none initialBreaker 0
    .failure).breaker

/-- Second step of the concrete failing run: a guarded failure at time 1. -/
def tripRun2 : BreakerData :=
  (SimpleCircuitBreaker.execute Unit paymentOptions none tripRun1 1
    .failure).breaker

/-- Third step of the concrete failing run: a guarded failure at time 2. -/
def tripRun3 : BreakerData :=
  (SimpleCircuitBreaker.execute Unit paymentOptions none tripRun2 2
    .failure).breaker

/-- C1: with `failureThreshold = 3`, three consecutive guarded failures
starting from CLOSED with `failureCount = 0` leave the breaker OPEN, and
the very next `execute` call made before the timeout has elapsed is
refused with the circuit-open result (a constructor distinct from the
dependency-failure result), does not invoke the guarded operation, and
leaves every breaker field unchanged. -/
theorem C1_three_failures_trip_and_refuse (o : CircuitBreakerOptions)
    (b b1 b2 b3 : BreakerData) (t1 t2 t3 t4 : Int) (opr : OpResult)
    (hthr : o.failureThreshold = 3) (hst : b.state = CircuitState.CLOSED)
    (hfc : b.failureCount = 0) (ht : t4 - t3 < o.timeout)
    (h1 : b1 = (SimpleCircuitBreaker.execute Unit o none b t1 .failure).breaker)
    (h2 : b2 = (SimpleCircuitBreaker.execute Unit o none b1 t2 .failure).breaker)
    (h3 : b3 = (SimpleCircuitBreaker.execute Unit o none b2 t3 .failure).breaker) :
    b3.state = CircuitState.OPEN ∧
    (SimpleCircuitBreaker.execute Unit o none b3 t4 opr).result
      = ExecResult.opened ∧
    (SimpleCircuitBreaker.execute Unit o none b3 t4 opr).opInvoked = false ∧
    (SimpleCircuitBreaker.execute Unit o none b3 t4 opr).breaker = b3 := by
  subst h1 h2 h3
  have hnot : ¬ (o.timeout ≤ t4 - t3) := by omega
  simp [SimpleCircuitBreaker.execute, SimpleCircuitBreaker.canExecute,
    SimpleCircuitBreaker.onFailure, SimpleCircuitBreaker.setState,
    SimpleCircuitBreaker.shouldAttemptReset, hst, hfc, hthr, hnot]

/-- Witness for C1: the concrete payment breaker options
(threshold 3, timeout 30000) against a fresh breaker, failures at times
0, 1, 2, and a fourth call at time 3. -/
theorem C1_three_failures_trip_and_refuse_witness :
    paymentOptions.failureThreshold = 3 ∧
    initialBreaker.state = CircuitState.CLOSED ∧
    initialBreaker.failureCount = 0 ∧
    ((3 : Int) - 2 < paymentOptions.timeout) ∧
    (tripRun3.state = CircuitState.OPEN ∧
     (SimpleCircuitBreaker.execute Unit paymentOptions none tripRun3 3
        .success).result = ExecResult.opened ∧
     (SimpleCircuitBreaker.execute Unit paymentOptions none tripRun3 3
        .success).opInvoked = false ∧
     (SimpleCircuitBreaker.execute Unit paymentOptions none tripRun3 3
        .success).breaker = tripRun3) :=
  ⟨by decide, by decide, by decide, by decide,
   C1_three_failures_trip_and_refuse paymentOptions initialBreaker tripRun1
     tripRun2 tripRun3 0 1 2 3 .success (by decide) (by decide) (by decide)
     (by decide) rfl rfl rfl⟩

/-- C2: with `timeout = 60000` ms and an OPEN breaker whose last failure
was at time `t`, an `execute` call at `t + 59999` is refused without
invoking the operation, while a call at `t + d` for any `d ≥ 60000` is
admitted, the admission check itself having moved the breaker to
HALF_OPEN before the guarded operation runs; this holds for the gateway /
payment family and the database / S3 family alike. -/
theorem C2_timeout_boundary (o : CircuitBreakerOptions) (b : BreakerData)
    (t d : Int) (opr : OpResult)
    (hto : o.timeout = 60000) (hst : b.state = CircuitState.OPEN)
    (hl : b.lastFailureTime = some t) (hd : 60000 ≤ d) :
    (SimpleCircuitBreaker.execute Unit o none b (t + 59999) opr).result
      = ExecResult.opened ∧
    (SimpleCircuitBreaker.execute Unit o none b (t + 59999) opr).opInvoked
      = false ∧
    (SimpleCircuitBreaker.canExecute o b (t + d)).1 = true ∧
    (SimpleCircuitBreaker.canExecute o b (t + d)).2.state
      = CircuitState.HALF_OPEN ∧
    (SimpleCircuitBreaker.execute Unit o none b (t + d) opr).opInvoked
      = true ∧
    (DatabaseCircuitBreaker.execute o b (t + 59999) opr).result
      = ExecResult.opened ∧
    (DatabaseCircuitBreaker.execute o b (t + 59999) opr).opInvoked = false ∧
    (DatabaseCircuitBreaker.canExecute o b (t + d)).1 = true ∧
    (DatabaseCircuitBreaker.canExecute o b (t + d)).2.state
      = CircuitState.HALF_OPEN ∧
    (DatabaseCircuitBreaker.execute o b (t + d) opr).opInvoked = true := by
  cases opr <;>
    simp [SimpleCircuitBreaker.execute, SimpleCircuitBreaker.canExecute,
      SimpleCircuitBreaker.shouldAttemptReset, SimpleCircuitBreaker.setState,
      DatabaseCircuitBreaker.execute, DatabaseCircuitBreaker.canExecute,
      DatabaseCircuitBreaker.changeState, hst, hl, hto, hd]

/-- Witness for C2: a breaker opened at time 100, probed at 100 + 59999
and at 100 + 60000, under the gateway route options (timeout 60000). -/
theorem C2_timeout_boundary_witness :
    (ApiGateway.gatewayBreakerOptions "auth").timeout = 60000 ∧
    ({ initialBreaker with
        state := CircuitState.OPEN
        lastFailureTime := some 100 } : BreakerData).state
      = CircuitState.OPEN ∧
    ({ initialBreaker with
        state := CircuitState.OPEN
        lastFailureTime := some 100 } : BreakerData).lastFailureTime
      = some 100 ∧
    ((60000 : Int) ≤ 60000) ∧
    ((SimpleCircuitBreaker.execute Unit (ApiGateway.gatewayBreakerOptions "auth")
        none { initialBreaker with
          state := CircuitState.OPEN, lastFailureTime := some 100 }
        (100 + 59999) .success).result = ExecResult.opened ∧
     (SimpleCircuitBreaker.execute Unit (ApiGateway.gatewayBreakerOptions "auth")
        none { initialBreaker with
          state := CircuitState.OPEN, lastFailureTime := some 100 }
        (100 + 59999) .success).opInvoked = false ∧
     (SimpleCircuitBreaker.canExecute (ApiGateway.gatewayBreakerOptions "auth")
        { initialBreaker with
          state := CircuitState.OPEN, lastFailureTime := some 100 }
        (100 + 60000)).1 = true ∧
     (SimpleCircuitBreaker.canExecute (ApiGateway.gatewayBreakerOptions "auth")
        { initialBreaker with
          state := CircuitState.OPEN, lastFailureTime := some 100 }
        (100 + 60000)).2.state = CircuitState.HALF_OPEN ∧
     (SimpleCircuitBreaker.execute Unit (ApiGateway.gatewayBreakerOptions "auth")
        none { initialBreaker with
          state := CircuitState.OPEN, lastFailureTime := some 100 }
        (100 + 60000) .success).opInvoked = true ∧
     (DatabaseCircuitBreaker.execute (ApiGateway.gatewayBreakerOptions "auth")
        { initialBreaker with
          state := CircuitState.OPEN, lastFailureTime := some 100 }
        (100 + 59999) .success).result = ExecResult.opened ∧
     (DatabaseCircuitBreaker.execute (ApiGateway.gatewayBreakerOptions "auth")
        { initialBreaker with
          state := CircuitState.OPEN, lastFailureTime := some 100 }
        (100 + 59999) .success).opInvoked = false ∧
     (DatabaseCircuitBreaker.canExecute (ApiGateway.gatewayBreakerOptions "auth")
        { initialBreaker with
          state := CircuitState.OPEN, lastFailureTime := some 100 }
        (100 + 60000)).1 = true ∧
     (DatabaseCircuitBreaker.canExecute (ApiGateway.gatewayBreakerOptions "auth")
        { initialBreaker with
          state := CircuitState.OPEN, lastFailureTime := some 100 }
        (100 + 60000)).2.state = CircuitState.HALF_OPEN ∧
     (DatabaseCircuitBreaker.execute (ApiGateway.gatewayBreakerOptions "auth")
        { initialBreaker with
          state := CircuitState.OPEN, lastFailureTime := some 100 }
        (100 + 60000) .success).opInvoked = true) :=
  ⟨by decide, by decide, by decide, by decide,
   C2_timeout_boundary (ApiGateway.gatewayBreakerOptions "auth")
     { initialBreaker with
        state := CircuitState.OPEN, lastFailureTime := some 100 }
     100 60000 .success (by decide) (by decide) (by decide) (by decide)⟩

/-- C3: with `successThreshold = 2` and a breaker that is HALF_OPEN with
`successCount = 0` (as every entry into HALF_OPEN leaves it), two
consecutive successful trial calls close the breaker with both working
counters zeroed, whereas a single failed trial call reopens it
immediately with `successCount` zeroed and the failure time freshly
recorded (gateway / payment family, as cited by the claim). -/
theorem C3_half_open_verdicts (o : CircuitBreakerOptions) (b : BreakerData)
    (t1 t2 : Int)
    (hthr : o.successThreshold = 2) (hst : b.state = CircuitState.HALF_OPEN)
    (hsc : b.successCount = 0) :
    ((SimpleCircuitBreaker.execute Unit o none
        ((SimpleCircuitBreaker.execute Unit o none b t1 .success).breaker)
        t2 .success).breaker.state = CircuitState.CLOSED ∧
     (SimpleCircuitBreaker.execute Unit o none
        ((SimpleCircuitBreaker.execute Unit o none b t1 .success).breaker)
        t2 .success).breaker.failureCount = 0 ∧
     (SimpleCircuitBreaker.execute Unit o none
        ((SimpleCircuitBreaker.execute Unit o none b t1 .success).breaker)
        t2 .success).breaker.successCount = 0) ∧
    ((SimpleCircuitBreaker.execute Unit o none b t1 .failure).breaker.state
        = CircuitState.OPEN ∧
     (SimpleCircuitBreaker.execute Unit o none b t1 .failure).breaker.successCount
        = 0 ∧
     (SimpleCircuitBreaker.execute Unit o none b t1 .failure).breaker.lastFailureTime
        = some t1) := by
  simp [SimpleCircuitBreaker.execute, SimpleCircuitBreaker.canExecute,
    SimpleCircuitBreaker.onSuccess, SimpleCircuitBreaker.onFailure,
    SimpleCircuitBreaker.reset, SimpleCircuitBreaker.setState,
    hthr, hst, hsc]

/-- Witness for C3: a HALF_OPEN breaker under the gateway route options
(successThreshold 2), trial calls at times 5 and 6. -/
theorem C3_half_open_verdicts_witness :
    (ApiGateway.gatewayBreakerOptions "bid").successThreshold = 2 ∧
    ({ initialBreaker with
        state := CircuitState.HALF_OPEN
        lastFailureTime := some 0 } : BreakerData).state
      = CircuitState.HALF_OPEN ∧
    ({ initialBreaker with
        state := CircuitState.HALF_OPEN
        lastFailureTime := some 0 } : BreakerData).successCount = 0 ∧
    (((SimpleCircuitBreaker.execute Unit (ApiGateway.gatewayBreakerOptions "bid")
        none ((SimpleCircuitBreaker.execute Unit
            (ApiGateway.gatewayBreakerOptions "bid") none
            { initialBreaker with
              state := CircuitState.HALF_OPEN, lastFailureTime := some 0 }
            5 .success).breaker)
        6 .success).breaker.state = CircuitState.CLOSED ∧
      (SimpleCircuitBreaker.execute Unit (ApiGateway.gatewayBreakerOptions "bid")
        none ((SimpleCircuitBreaker.execute Unit
            (ApiGateway.gatewayBreakerOptions "bid") none
            { initialBreaker with
              state := CircuitState.HALF_OPEN, lastFailureTime := some 0 }
            5 .success).breaker)
        6 .success).breaker.failureCount = 0 ∧
      (SimpleCircuitBreaker.execute Unit (ApiGateway.gatewayBreakerOptions "bid")
        none ((SimpleCircuitBreaker.execute Unit
            (ApiGateway.gatewayBreakerOptions "bid") none
            { initialBreaker with
              state := CircuitState.HALF_OPEN, lastFailureTime := some 0 }
            5 .success).breaker)
        6 .success).breaker.successCount = 0) ∧
     ((SimpleCircuitBreaker.execute Unit (ApiGateway.gatewayBreakerOptions "bid")
        none { initialBreaker with
          state := CircuitState.HALF_OPEN, lastFailureTime := some 0 }
        5 .failure).breaker.state = CircuitState.OPEN ∧
      (SimpleCircuitBreaker.execute Unit (ApiGateway.gatewayBreakerOptions "bid")
        none { initialBreaker with
          state := CircuitState.HALF_OPEN, lastFailureTime := some 0 }
        5 .failure).breaker.successCount = 0 ∧
      (SimpleCircuitBreaker.execute Unit (ApiGateway.gatewayBreakerOptions "bid")
        none { initialBreaker with
          state := CircuitState.HALF_OPEN, lastFailureTime := some 0 }
        5 .failure).breaker.lastFailureTime = some 5)) :=
  ⟨by decide, by decide, by decide,
   C3_half_open_verdicts (ApiGateway.gatewayBreakerOptions "bid")
     { initialBreaker with
        state := CircuitState.HALF_OPEN, lastFailureTime := some 0 }
     5 6 (by decide) (by decide) (by decide)⟩

/-- A CLOSED breaker that has accumulated two failures without tripping:
concrete input for the success-handling and reset claims. -/
def closedWithTwoFailures : BreakerData :=
  { initialBreaker with
      failureCount := 2
      lastFailureTime := some 7
      totalRequests := 5
      totalFailures := 2 }

/-- An OPEN breaker with non-zero working counters: concrete input for
the administrative-reset and health claims. -/
def openWithCounts : BreakerData :=
  { state := CircuitState.OPEN
    failureCount := 3
    successCount := 1
    lastFailureTime := some 7
    totalRequests := 4
    totalFailures := 3 }

/-- C4 counterexample: the database / S3 breaker family violates the
leaky-recovery claim — CLOSED with `failureCount = 2`, one successful
call resets the failure count to 0, not to `max(0, 2 - 1) = 1`. -/
theorem C4_counterexample :
    (DatabaseCircuitBreaker.execute profileDatabaseOptions
      closedWithTwoFailures 8 .success).breaker.failureCount = 0 ∧
    ¬ ((DatabaseCircuitBreaker.execute profileDatabaseOptions
      closedWithTwoFailures 8 .success).breaker.failureCount
        = closedWithTwoFailures.failureCount - 1) := by decide

/-- C4 amended: on a successful call while CLOSED, the gateway / payment
breaker family decrements the failure count toward zero
(`max(0, n - 1)`, truncated subtraction on naturals), while the
database / S3 family resets it outright to zero. -/
theorem C4_success_failure_count_policy (o oD : CircuitBreakerOptions)
    (b bD : BreakerData) (t tD : Int)
    (hs : b.state = CircuitState.CLOSED)
    (hsD : bD.state = CircuitState.CLOSED) :
    (SimpleCircuitBreaker.execute Unit o none b t .success).breaker.failureCount
      = b.failureCount - 1 ∧
    (DatabaseCircuitBreaker.execute oD bD tD .success).breaker.failureCount
      = 0 := by
  constructor
  · simp [SimpleCircuitBreaker.execute, SimpleCircuitBreaker.canExecute,
      SimpleCircuitBreaker.onSuccess, SimpleCircuitBreaker.reset,
      SimpleCircuitBreaker.setState, hs]
  · simp [DatabaseCircuitBreaker.execute, DatabaseCircuitBreaker.canExecute,
      DatabaseCircuitBreaker.onSuccess, DatabaseCircuitBreaker.changeState,
      hsD]

/-- Witness for the amended C4: the payment breaker and the profile
database breaker, each CLOSED with two accumulated failures, one
successful call at time 8. -/
theorem C4_success_failure_count_policy_witness :
    closedWithTwoFailures.state = CircuitState.CLOSED ∧
    ((SimpleCircuitBreaker.execute Unit paymentOptions none
        closedWithTwoFailures 8 .success).breaker.failureCount
      = closedWithTwoFailures.failureCount - 1 ∧
     (DatabaseCircuitBreaker.execute profileDatabaseOptions
        closedWithTwoFailures 8 .success).breaker.failureCount = 0) :=
  ⟨by decide,
   C4_success_failure_count_policy paymentOptions profileDatabaseOptions
     closedWithTwoFailures closedWithTwoFailures 8 8 (by decide) (by decide)⟩

/-- C5 counterexample: `forceReset()` of the database / S3 breaker family
is `changeState(CLOSED)`, which is guarded by a state comparison — on a
breaker already CLOSED with `failureCount = 2` it leaves the count at 2
instead of zeroing it. -/
theorem C5_counterexample :
    (DatabaseCircuitBreaker.forceReset closedWithTwoFailures).failureCount
      = 2 ∧
    ¬ ((DatabaseCircuitBreaker.forceReset closedWithTwoFailures).failureCount
      = 0) := by decide

/-- C5 amended: `forceReset()` of the gateway / payment family always
yields CLOSED with both working counters zeroed; for the database / S3
family this holds whenever the breaker is not already CLOSED, and when it
is already CLOSED the call changes nothing at all (counts included). -/
theorem C5_force_reset_policy (b bD bC : BreakerData)
    (hD : bD.state ≠ CircuitState.CLOSED)
    (hC : bC.state = CircuitState.CLOSED) :
    ((SimpleCircuitBreaker.forceReset b).state = CircuitState.CLOSED ∧
     (SimpleCircuitBreaker.forceReset b).failureCount = 0 ∧
     (SimpleCircuitBreaker.forceReset b).successCount = 0) ∧
    ((DatabaseCircuitBreaker.forceReset bD).state = CircuitState.CLOSED ∧
     (DatabaseCircuitBreaker.forceReset bD).failureCount = 0 ∧
     (DatabaseCircuitBreaker.forceReset bD).successCount = 0) ∧
    DatabaseCircuitBreaker.forceReset bC = bC := by
  refine ⟨?_, ?_, ?_⟩
  · simp [SimpleCircuitBreaker.forceReset, SimpleCircuitBreaker.reset,
      SimpleCircuitBreaker.setState]
  · simp [DatabaseCircuitBreaker.forceReset,
      DatabaseCircuitBreaker.changeState, hD]
  · simp [DatabaseCircuitBreaker.forceReset,
      DatabaseCircuitBreaker.changeState, hC]

/-- Witness for the amended C5: an OPEN breaker with non-zero counters
and an already-CLOSED breaker with two failures. -/
theorem C5_force_reset_policy_witness :
    openWithCounts.state ≠ CircuitState.CLOSED ∧
    closedWithTwoFailures.state = CircuitState.CLOSED ∧
    (((SimpleCircuitBreaker.forceReset openWithCounts).state
        = CircuitState.CLOSED ∧
      (SimpleCircuitBreaker.forceReset openWithCounts).failureCount = 0 ∧
      (SimpleCircuitBreaker.forceReset openWithCounts).successCount = 0) ∧
     ((DatabaseCircuitBreaker.forceReset openWithCounts).state
        = CircuitState.CLOSED ∧
      (DatabaseCircuitBreaker.forceReset openWithCounts).failureCount = 0 ∧
      (DatabaseCircuitBreaker.forceReset openWithCounts).successCount = 0) ∧
     DatabaseCircuitBreaker.forceReset closedWithTwoFailures
        = closedWithTwoFailures) :=
  ⟨by decide, by decide,
   C5_force_reset_policy openWithCounts openWithCounts closedWithTwoFailures
     (by decide) (by decide)⟩

/-- C6: when a route breaker is OPEN and the timeout has not elapsed, the
gateway answers 503 with the standardized fallback body whose
`serviceName` equals the configured route name (plus error, message,
timestamp and retryAfter fields), and the backend is contacted zero
times. -/
theorem C6_gateway_open_route_503 (serviceName ts : String)
    (b : BreakerData) (t now : Int) (backendStatus : Nat)
    (hst : b.state = CircuitState.OPEN) (hl : b.lastFailureTime = some t)
    (ht : now - t < 60000) :
    (ApiGateway.proxyRequest serviceName ts b now backendStatus).status
      = 503 ∧
    (ApiGateway.proxyRequest serviceName ts b now backendStatus).body
      = ApiGateway.ProxyBody.fromFallback
          { error := "Service Temporarily Unavailable"
            message := "The " ++ serviceName ++
              " service is currently experiencing issues. Please try again later."
            serviceName := serviceName
            timestamp := ts
            retryAfter := "60 seconds" } ∧
    (ApiGateway.proxyRequest serviceName ts b now backendStatus).backendCalls
      = 0 := by
  have hn : ¬ ((60000 : Int) ≤ now - t) := by omega
  simp [ApiGateway.proxyRequest, ApiGateway.onFallback,
    ApiGateway.gatewayBreakerOptions, SimpleCircuitBreaker.execute,
    SimpleCircuitBreaker.canExecute, SimpleCircuitBreaker.shouldAttemptReset,
    hst, hl, hn]

/-- Witness for C6: the auth route, an OPEN breaker whose last failure
was at time 7, probed at time 10 with a healthy stub backend. -/
theorem C6_gateway_open_route_503_witness :
    openWithCounts.state = CircuitState.OPEN ∧
    openWithCounts.lastFailureTime = some 7 ∧
    ((10 : Int) - 7 < 60000) ∧
    ((ApiGateway.proxyRequest "auth" "2025-01-01T00:00:00.000Z"
        openWithCounts 10 200).status = 503 ∧
     (ApiGateway.proxyRequest "auth" "2025-01-01T00:00:00.000Z"
        openWithCounts 10 200).body
      = ApiGateway.ProxyBody.fromFallback
          { error := "Service Temporarily Unavailable"
            message := "The " ++ "auth" ++
              " service is currently experiencing issues. Please try again later."
            serviceName := "auth"
            timestamp := "2025-01-01T00:00:00.000Z"
            retryAfter := "60 seconds" } ∧
     (ApiGateway.proxyRequest "auth" "2025-01-01T00:00:00.000Z"
        openWithCounts 10 200).backendCalls = 0) :=
  ⟨by decide, by decide, by decide,
   C6_gateway_open_route_503 "auth" "2025-01-01T00:00:00.000Z"
     openWithCounts 7 10 200 (by decide) (by decide) (by decide)⟩

/-- A breaker that has served two requests, one of which failed: concrete
input for the statistics claim. -/
def twoRequestsOneFailure : BreakerData :=
  { initialBreaker with totalRequests := 2, totalFailures := 1 }

/-- A breaker sitting in HALF_OPEN: concrete input for the health claim. -/
def halfOpenBreaker : BreakerData :=
  { initialBreaker with
      state := CircuitState.HALF_OPEN
      lastFailureTime := some 7
      totalRequests := 3
      totalFailures := 3 }

/-- C7 counterexample: with 2 requests and 1 failure, `getStats()` reports
`errorRate = 50` — the percentage `totalFailures / totalRequests * 100` —
not the plain ratio 1/2 the claim states. -/
theorem C7_counterexample :
    (SimpleCircuitBreaker.getStats paymentOptions
      twoRequestsOneFailure).errorRate = 50 ∧
    ¬ ((SimpleCircuitBreaker.getStats paymentOptions
      twoRequestsOneFailure).errorRate
        = (twoRequestsOneFailure.totalFailures : ℚ)
          / (twoRequestsOneFailure.totalRequests : ℚ)) := by
  constructor
  · norm_num [SimpleCircuitBreaker.getStats, twoRequestsOneFailure,
      initialBreaker]
  · norm_num [SimpleCircuitBreaker.getStats, twoRequestsOneFailure,
      initialBreaker]

/-- C7 amended: for the gateway / payment breaker family with
`totalRequests > 0`, `getStats()` reports
`errorRate = totalFailures / totalRequests * 100` (a percentage, not the
bare ratio), and every other stats field mirrors the corresponding
breaker field; the function only constructs the stats object. (The
database / S3 family reports an `uptime` field instead of `errorRate`.) -/
theorem C7_get_stats_fields (o : CircuitBreakerOptions) (b : BreakerData)
    (h : 0 < b.totalRequests) :
    (SimpleCircuitBreaker.getStats o b).errorRate
      = (b.totalFailures : ℚ) / (b.totalRequests : ℚ) * 100 ∧
    (SimpleCircuitBreaker.getStats o b).name = o.name ∧
    (SimpleCircuitBreaker.getStats o b).state = b.state ∧
    (SimpleCircuitBreaker.getStats o b).failureCount = b.failureCount ∧
    (SimpleCircuitBreaker.getStats o b).successCount = b.successCount ∧
    (SimpleCircuitBreaker.getStats o b).totalRequests = b.totalRequests ∧
    (SimpleCircuitBreaker.getStats o b).totalFailures = b.totalFailures ∧
    (SimpleCircuitBreaker.getStats o b).lastFailureTime
      = b.lastFailureTime := by
  simp [SimpleCircuitBreaker.getStats, h]

/-- Witness for the amended C7: the two-requests-one-failure breaker. -/
theorem C7_get_stats_fields_witness :
    0 < twoRequestsOneFailure.totalRequests ∧
    ((SimpleCircuitBreaker.getStats paymentOptions
        twoRequestsOneFailure).errorRate
      = (twoRequestsOneFailure.totalFailures : ℚ)
        / (twoRequestsOneFailure.totalRequests : ℚ) * 100 ∧
     (SimpleCircuitBreaker.getStats paymentOptions
        twoRequestsOneFailure).name = paymentOptions.name ∧
     (SimpleCircuitBreaker.getStats paymentOptions
        twoRequestsOneFailure).state = twoRequestsOneFailure.state ∧
     (SimpleCircuitBreaker.getStats paymentOptions
        twoRequestsOneFailure).failureCount
      = twoRequestsOneFailure.failureCount ∧
     (SimpleCircuitBreaker.getStats paymentOptions
        twoRequestsOneFailure).successCount
      = twoRequestsOneFailure.successCount ∧
     (SimpleCircuitBreaker.getStats paymentOptions
        twoRequestsOneFailure).totalRequests
      = twoRequestsOneFailure.totalRequests ∧
     (SimpleCircuitBreaker.getStats paymentOptions
        twoRequestsOneFailure).totalFailures
      = twoRequestsOneFailure.totalFailures ∧
     (SimpleCircuitBreaker.getStats paymentOptions
        twoRequestsOneFailure).lastFailureTime
      = twoRequestsOneFailure.lastFailureTime) :=
  ⟨by decide,
   C7_get_stats_fields paymentOptions twoRequestsOneFailure (by decide)⟩

/-- C8 counterexample: the database / S3 breaker family reports unhealthy
while HALF_OPEN — `isHealthy` is false on a HALF_OPEN breaker even though
its state is not OPEN, refuting the claim for that family. -/
theorem C8_counterexample :
    DatabaseCircuitBreaker.isHealthy halfOpenBreaker = false ∧
    halfOpenBreaker.state ≠ CircuitState.OPEN := by decide

/-- C8 amended: for the gateway / payment breaker family, `isHealthy()`
is true exactly when the state is not OPEN (so HALF_OPEN is healthy); for
the database / S3 family it is true exactly when the state is CLOSED (so
HALF_OPEN reports unhealthy). -/
theorem C8_is_healthy_policy (b : BreakerData) :
    (SimpleCircuitBreaker.isHealthy b = true
      ↔ b.state ≠ CircuitState.OPEN) ∧
    (DatabaseCircuitBreaker.isHealthy b = true
      ↔ b.state = CircuitState.CLOSED) := by
  simp [SimpleCircuitBreaker.isHealthy, DatabaseCircuitBreaker.isHealthy]

/-- Counter deltas of one operation step: a step leaves `totalRequests`
and `totalFailures` unchanged, or performs one admitted request adding
one to `totalRequests` and zero or one to `totalFailures`. -/
theorem step_counter_deltas (o : CircuitBreakerOptions) (b : BreakerData)
    (op : BreakerOp) :
    ((SimpleCircuitBreaker.step o b op).totalRequests = b.totalRequests ∧
     (SimpleCircuitBreaker.step o b op).totalFailures = b.totalFailures) ∨
    ((SimpleCircuitBreaker.step o b op).totalRequests = b.totalRequests + 1 ∧
     (SimpleCircuitBreaker.step o b op).totalFailures = b.totalFailures) ∨
    ((SimpleCircuitBreaker.step o b op).totalRequests = b.totalRequests + 1 ∧
     (SimpleCircuitBreaker.step o b op).totalFailures
       = b.totalFailures + 1) := by
  cases op with
  | exec now r =>
      cases r <;> cases hbs : b.state <;>
        simp [SimpleCircuitBreaker.step, SimpleCircuitBreaker.execute,
          SimpleCircuitBreaker.canExecute, SimpleCircuitBreaker.onSuccess,
          SimpleCircuitBreaker.onFailure, SimpleCircuitBreaker.reset,
          SimpleCircuitBreaker.setState,
          SimpleCircuitBreaker.shouldAttemptReset, hbs] <;>
        split_ifs <;> simp
  | trip now =>
      left
      simp [SimpleCircuitBreaker.step, SimpleCircuitBreaker.trip,
        SimpleCircuitBreaker.setState]
  | forceReset =>
      left
      simp [SimpleCircuitBreaker.step, SimpleCircuitBreaker.forceReset,
        SimpleCircuitBreaker.reset, SimpleCircuitBreaker.setState]

/-- C9: after any finite sequence of execute / trip / forceReset
operations (admitted, refused, succeeding or failing), a breaker whose
lifetime counters satisfy `totalFailures ≤ totalRequests` still satisfies
it, and neither lifetime counter has decreased. -/
theorem C9_lifetime_counter_invariant (o : CircuitBreakerOptions)
    (ops : List BreakerOp) (b : BreakerData)
    (hinv : b.totalFailures ≤ b.totalRequests) :
    (SimpleCircuitBreaker.run o b ops).totalFailures
      ≤ (SimpleCircuitBreaker.run o b ops).totalRequests ∧
    b.totalRequests ≤ (SimpleCircuitBreaker.run o b ops).totalRequests ∧
    b.totalFailures ≤ (SimpleCircuitBreaker.run o b ops).totalFailures := by
  induction ops generalizing b with
  | nil => exact ⟨hinv, le_refl _, le_refl _⟩
  | cons op rest ih =>
      have hrun : SimpleCircuitBreaker.run o b (op :: rest)
          = SimpleCircuitBreaker.run o (SimpleCircuitBreaker.step o b op)
              rest := rfl
      rw [hrun]
      rcases step_counter_deltas o b op with h | h | h <;>
        { obtain ⟨h1, h2⟩ := h
          have hiv : (SimpleCircuitBreaker.step o b op).totalFailures
              ≤ (SimpleCircuitBreaker.step o b op).totalRequests := by omega
          obtain ⟨ha, hb2, hc⟩ := ih (SimpleCircuitBreaker.step o b op) hiv
          exact ⟨ha, by omega, by omega⟩ }

/-- A concrete mixed operation sequence: admitted failure, admitted
success, administrative trip, a refused call while OPEN, forced reset,
and one more admitted failure. -/
def mixedOps : List BreakerOp :=
  [BreakerOp.exec 0 OpResult.failure,
   BreakerOp.exec 1 OpResult.success,
   BreakerOp.trip 2,
   BreakerOp.exec 3 OpResult.failure,
   BreakerOp.forceReset,
   BreakerOp.exec 4 OpResult.failure]

/-- Witness for C9: a fresh gateway-route breaker run through the mixed
operation sequence. -/
theorem C9_lifetime_counter_invariant_witness :
    initialBreaker.totalFailures ≤ initialBreaker.totalRequests ∧
    ((SimpleCircuitBreaker.run (ApiGateway.gatewayBreakerOptions "profile")
        initialBreaker mixedOps).totalFailures
      ≤ (SimpleCircuitBreaker.run (ApiGateway.gatewayBreakerOptions "profile")
          initialBreaker mixedOps).totalRequests ∧
     initialBreaker.totalRequests
      ≤ (SimpleCircuitBreaker.run (ApiGateway.gatewayBreakerOptions "profile")
          initialBreaker mixedOps).totalRequests ∧
     initialBreaker.totalFailures
      ≤ (SimpleCircuitBreaker.run (ApiGateway.gatewayBreakerOptions "profile")
          initialBreaker mixedOps).totalFailures) :=
  ⟨by decide,
   C9_lifetime_counter_invariant (ApiGateway.gatewayBreakerOptions "profile")
     mixedOps initialBreaker (by decide)⟩

/-- C10: an `execute` call refused while OPEN (timeout not elapsed)
leaves every breaker field unchanged in every variant — with or without a
fallback installed — and never invokes the guarded operation; in
particular refused calls do not count toward `totalRequests`. -/
theorem C10_refused_call_is_pure (α : Type) (fb : Option (String → α))
    (o oD : CircuitBreakerOptions) (b : BreakerData) (t now : Int)
    (opr : OpResult)
    (hst : b.state = CircuitState.OPEN) (hl : b.lastFailureTime = some t)
    (ht : now - t < o.timeout) (htD : now - t < oD.timeout) :
    (SimpleCircuitBreaker.execute α o fb b now opr).breaker = b ∧
    (SimpleCircuitBreaker.execute α o fb b now opr).opInvoked = false ∧
    (DatabaseCircuitBreaker.execute oD b now opr).breaker = b ∧
    (DatabaseCircuitBreaker.execute oD b now opr).opInvoked = false := by
  have h1 : ¬ (o.timeout ≤ now - t) := by omega
  have h2 : ¬ (oD.timeout ≤ now - t) := by omega
  cases fb <;>
    simp [SimpleCircuitBreaker.execute, SimpleCircuitBreaker.canExecute,
      SimpleCircuitBreaker.shouldAttemptReset,
      DatabaseCircuitBreaker.execute, DatabaseCircuitBreaker.canExecute,
      hst, hl, h1, h2]

/-- Witness for C10: the OPEN breaker with counters, refused at time 10
(last failure at 7) by the gateway email route breaker (with its fallback
installed) and by the profile database breaker. -/
theorem C10_refused_call_is_pure_witness :
    openWithCounts.state = CircuitState.OPEN ∧
    openWithCounts.lastFailureTime = some 7 ∧
    ((10 : Int) - 7 < (ApiGateway.gatewayBreakerOptions "email").timeout) ∧
    ((10 : Int) - 7 < profileDatabaseOptions.timeout) ∧
    ((SimpleCircuitBreaker.execute ApiGateway.FallbackResponse
        (ApiGateway.gatewayBreakerOptions "email")
        (some (ApiGateway.onFallback "ts0")) openWithCounts 10
        .failure).breaker = openWithCounts ∧
     (SimpleCircuitBreaker.execute ApiGateway.FallbackResponse
        (ApiGateway.gatewayBreakerOptions "email")
        (some (ApiGateway.onFallback "ts0")) openWithCounts 10
        .failure).opInvoked = false ∧
     (DatabaseCircuitBreaker.execute profileDatabaseOptions
        openWithCounts 10 .failure).breaker = openWithCounts ∧
     (DatabaseCircuitBreaker.execute profileDatabaseOptions
        openWithCounts 10 .failure).opInvoked = false) :=
  ⟨by decide, by decide, by decide, by decide,
   C10_refused_call_is_pure ApiGateway.FallbackResponse
     (some (ApiGateway.onFallback "ts0"))
     (ApiGateway.gatewayBreakerOptions "email") profileDatabaseOptions
     openWithCounts 7 10 .failure (by decide) (by decide) (by decide)
     (by decide)⟩

end Auction
